import Mathlib

/-!
Shallow embedding of the persistent player-state store of the tapper-game
repository (src/database.py, src/webapp_bot.py), together with theorems
settling the specification claims about it.

Conventions of the embedding:
* SQLite tables become Lean lists of structure values; an `INTEGER PRIMARY KEY
  AUTOINCREMENT` column becomes an explicit `nextId` counter in the state.
* Timestamps are modelled as integers (`now` is passed explicitly to every
  operation that reads `CURRENT_TIMESTAMP`); for `cleanup_old_records` the unit
  is days, matching the SQL `datetime(now, -N days)` comparison.
* A Python call that raises (and rolls back its transaction) is modelled by an
  `Option`-valued result: `none` is the raised exception; any state committed
  before the raise is still returned, because `sqlite3` commits are durable.
* Python `int(x)` coercion of an update-payload value is modelled by `pyInt`
  over `Value`, where `Value.bad` stands for a non-numeric / unparseable value
  (on which `int` raises `ValueError`) and `Value.num n` for a value that
  coerces to the integer `n`.
-/

/-- A JSON payload value destined for a numeric column: either it coerces to an
integer under Python `int(...)`, or it is non-numeric / unparseable. -/
inductive Value where
  | num (n : Int) : Value
  | bad : Value
deriving DecidableEq, Repr

/-- Python `int(v)` on a payload value: `some n` on success, `none` when
`int` raises `ValueError` / `TypeError`. -/
def pyInt : Value → Option Int
  | Value.num n => some n
  | Value.bad => none

/-! ## WebAppDatabase (src/database.py, class WebAppDatabase) -/

/-- One row of the `webapp_users` table (src/database.py lines 296-306). -/
structure WebUser where
  id : Int
  telegram_id : Int
  nickname : String
  avatar : String
  total_taps : Int
  best_score : Int
  tap_power : Int
  taps_per_minute : Int
  coins : Int
  last_updated : Int
deriving DecidableEq, Repr

/-- One row of the `achievements` table (src/database.py lines 309-315). -/
structure Achievement where
  user_id : Int
  achievement_type : String
  value : Int
  unlocked_at : Int
deriving DecidableEq, Repr

/-- One row of the `purchases` table (src/database.py lines 318-325). -/
structure Purchase where
  user_id : Int
  item_type : String
  item_id : String
  cost : Int
  purchased_at : Int
deriving DecidableEq, Repr

/-- The state of the webapp database file: the three tables plus the
autoincrement counter backing `webapp_users.id`. -/
structure WebAppState where
  users : List WebUser
  nextId : Int
  achievements : List Achievement
  purchases : List Purchase
deriving DecidableEq, Repr

/-- A freshly created webapp database (after `init_db`). -/
def emptyWebApp : WebAppState := ⟨[], 1, [], []⟩

/-- The row inserted by `INSERT INTO webapp_users (telegram_id) VALUES (?)`:
every other column takes its DDL default (`nickname` defaults to the literal
string written in the DDL, `avatar` to `avatar1`, numeric columns to `0`
except `tap_power` which defaults to `1`, `last_updated` to
`CURRENT_TIMESTAMP`). -/
def defaultWebUser (uid tid now : Int) : WebUser :=
  ⟨uid, tid, "Игрок", "avatar1", 0, 0, 1, 0, 0, now⟩

/-- `WebAppDatabase.get_or_create_user` (src/database.py lines 342-365):
look the user up by `telegram_id`; if absent, insert a default row (this
insert is committed immediately) and return it. -/
def get_or_create_user (st : WebAppState) (tid now : Int) : WebAppState × WebUser :=
  match st.users.find? (fun r => r.telegram_id == tid) with
  | some u => (st, u)
  | none =>
      let u := defaultWebUser st.nextId tid now
      ({ st with users := st.users ++ [u], nextId := st.nextId + 1 }, u)

/-- The partial-update payload accepted by `update_user_data`: the `data`
dict, restricted to the keys the method reads. A missing key is `none`. -/
structure UpdateData where
  nickname : Option String := none
  avatar : Option String := none
  total_taps : Option Value := none
  best_score : Option Value := none
  tap_power : Option Value := none
  taps_per_minute : Option Value := none
  coins : Option Value := none
deriving DecidableEq, Repr

/-- `WebAppDatabase.update_user_data` (src/database.py lines 367-407).

Mirrors the source step by step: first `get_or_create_user` (whose insert, if
any, is committed on its own); then the `update_data` dict is built, coercing
each numeric field with `int(...)` (falling back to the current value when the
key is absent) and clamping with `max(0, ...)` (`max(1, ...)` for
`tap_power`); if any coercion raises, the whole call raises — modelled by a
`none` second component — and the `UPDATE` is never executed; otherwise the
single row with this `telegram_id` is overwritten with the computed values and
`last_updated = CURRENT_TIMESTAMP`, and the computed record is returned. -/
def update_user_data (st : WebAppState) (tid : Int) (data : UpdateData) (now : Int) :
    WebAppState × Option WebUser :=
  let res := get_or_create_user st tid now
  let st1 := res.1
  let cur := res.2
  match pyInt (data.total_taps.getD (Value.num cur.total_taps)),
        pyInt (data.best_score.getD (Value.num cur.best_score)),
        pyInt (data.tap_power.getD (Value.num cur.tap_power)),
        pyInt (data.taps_per_minute.getD (Value.num cur.taps_per_minute)),
        pyInt (data.coins.getD (Value.num cur.coins)) with
  | some tt, some bs, some tp, some tpm, some cn =>
      let write : WebUser → WebUser := fun r =>
        { r with nickname := data.nickname.getD cur.nickname,
                 avatar := data.avatar.getD cur.avatar,
                 total_taps := max 0 tt,
                 best_score := max 0 bs,
                 tap_power := max 1 tp,
                 taps_per_minute := max 0 tpm,
                 coins := max 0 cn,
                 last_updated := now }
      ({ st1 with
          users := st1.users.map (fun r => if r.telegram_id == tid then write r else r) },
       some (write cur))
  | _, _, _, _, _ => (st1, none)

/-- `WebAppDatabase.record_achievement` (src/database.py lines 427-441):
an unconditional `INSERT` into `achievements`; no uniqueness constraint
exists on `(user_id, achievement_type)`, so every call appends a row. -/
def record_achievement (st : WebAppState) (uid : Int) (atype : String) (v now : Int) :
    WebAppState :=
  { st with achievements := st.achievements ++ [⟨uid, atype, v, now⟩] }

/-- `WebAppDatabase.record_purchase` (src/database.py lines 443-472):
look the user up by surrogate `id`; if present and `coins >= cost`, insert one
`purchases` row, decrement the balance by `cost`, and return `True`;
otherwise return `False` without touching the database. -/
def record_purchase (st : WebAppState) (uid : Int) (itype iid : String) (cost now : Int) :
    WebAppState × Bool :=
  match st.users.find? (fun r => r.id == uid) with
  | some u =>
      if cost ≤ u.coins then
        ({ st with
            users := st.users.map (fun r =>
              if r.id == uid then { r with coins := r.coins - cost, last_updated := now } else r),
            purchases := st.purchases ++ [⟨uid, itype, iid, cost, now⟩] }, true)
      else (st, false)
  | none => (st, false)

/-- The `webapp_users` row currently stored for a `telegram_id`. -/
def getUserRow (st : WebAppState) (tid : Int) : Option WebUser :=
  st.users.find? (fun r => r.telegram_id == tid)

/-! ## The gameEnd flow (src/webapp_bot.py, handle_webapp_data) -/

/-- The JSON payload of a `gameEnd` message from the web app, restricted to
the keys `handle_webapp_data` reads. Numeric values that fail `int(...)` are
out of scope here (the handler would raise before reaching the store);
this structure models payloads that coerce. -/
structure GameEndData where
  score : Option Int := none
  tapsPerMinute : Option Int := none
  tapPower : Option Int := none
  coinsEarned : Option Int := none
  nickname : Option String := none
  avatar : Option String := none
deriving DecidableEq, Repr

/-- The `action == gameEnd` branch of `handle_webapp_data`
(src/webapp_bot.py lines 116-157). This is the code path that implements the
spec operation `updatePlayer(userId, {score, tapsPerMinute, tapPower, ...})`:
it fetches the current row, clamps the incoming session numbers, computes the
merged record (`total_taps` additive, `best_score` / `taps_per_minute` via
`max`, `coins` additive with `coinsEarned` defaulting to `score // 10`),
writes it through `update_user_data`, and then — only if the write succeeded —
records a `high_score` achievement when `score > 1000` and a `speed_demon`
achievement when `tapsPerMinute > 100`, each in its own transaction, keyed by
the surrogate `id` of the row fetched at the start. -/
def handle_game_end (st : WebAppState) (tid : Int) (g : GameEndData) (now : Int) :
    WebAppState :=
  let res := get_or_create_user st tid now
  let st1 := res.1
  let cur := res.2
  let score := max 0 (g.score.getD 0)
  let tpm := max 0 (g.tapsPerMinute.getD 0)
  let tap_power := max 1 (g.tapPower.getD 1)
  let coins_earned := max 0 (g.coinsEarned.getD (Int.fdiv score 10))
  let upd : UpdateData :=
    { nickname := some (g.nickname.getD cur.nickname),
      avatar := some (g.avatar.getD cur.avatar),
      total_taps := some (Value.num (cur.total_taps + score)),
      best_score := some (Value.num (max cur.best_score score)),
      tap_power := some (Value.num tap_power),
      taps_per_minute := some (Value.num (max cur.taps_per_minute tpm)),
      coins := some (Value.num (cur.coins + coins_earned)) }
  let res2 := update_user_data st1 tid upd now
  match res2.2 with
  | none => res2.1
  | some _ =>
      let st3 := if 1000 < score then record_achievement res2.1 cur.id "high_score" score now
                 else res2.1
      if 100 < tpm then record_achievement st3 cur.id "speed_demon" tpm now else st3

/-- The row that the gameEnd flow leaves stored for the player, as a closed
form of the merge computed across `handle_webapp_data` and
`update_user_data`: `total_taps` additive, `best_score` and `taps_per_minute`
max-merged, `coins` additive, inner clamps from the handler and outer clamps
from `update_user_data`. -/
def gameEndMerge (cur : WebUser) (g : GameEndData) (now : Int) : WebUser :=
  let score := max 0 (g.score.getD 0)
  let tpm := max 0 (g.tapsPerMinute.getD 0)
  let coins_earned := max 0 (g.coinsEarned.getD (Int.fdiv score 10))
  { cur with
    nickname := g.nickname.getD cur.nickname,
    avatar := g.avatar.getD cur.avatar,
    total_taps := max 0 (cur.total_taps + score),
    best_score := max 0 (max cur.best_score score),
    tap_power := max 1 (max 1 (g.tapPower.getD 1)),
    taps_per_minute := max 0 (max cur.taps_per_minute tpm),
    coins := max 0 (cur.coins + coins_earned),
    last_updated := now }

/-- The set of "completed tasks" of a player as it reads off the
`achievements` schema: the achievement types recorded for the player, in
insertion order. This is the read model the claim's `getCompletedTasks`
denotes over this store (the repository exposes no such query itself). -/
def completed_types (st : WebAppState) (uid : Int) : List String :=
  (st.achievements.filter (fun a => a.user_id == uid)).map (fun a => a.achievement_type)

/-- One row of the `players` table (src/database.py lines 43-55). -/
structure GameRow where
  user_id : Int
  nickname : String
  avatar : String
  total_taps : Int
  best_score : Int
  tap_power : Int
  taps_per_minute : Int
  current_score : Int
  game_state : String
  last_tap_time : Option Int
  session_start_time : Option Int
  last_updated : Int
deriving DecidableEq, Repr

/-- One row of the `game_sessions` table (src/database.py lines 58-66). -/
structure GameSession where
  user_id : Int
  start_time : Int
  end_time : Option Int
  total_taps : Int
  score : Int
  taps_per_minute : Int
deriving DecidableEq, Repr

/-- The state of the game database file (the `tap_history` table plays no
role in any claim and is omitted; no operation modelled here reads it). -/
structure GameState where
  players : List GameRow
  sessions : List GameSession
deriving DecidableEq, Repr

/-- The row inserted by `INSERT INTO players (user_id) VALUES (?)`: every
other column takes its DDL default. -/
def defaultGameRow (uid now : Int) : GameRow :=
  ⟨uid, "Игрок", "avatar1", 0, 0, 1, 0, 0, "idle", none, none, now⟩

/-- `Database.get_player` (src/database.py lines 201-221): select by
`user_id`; if no row exists, insert a default row (committed), re-select it,
and return it. The caller never sees a not-found outcome. -/
def get_player (st : GameState) (uid now : Int) : GameState × GameRow :=
  match st.players.find? (fun r => r.user_id == uid) with
  | some p => (st, p)
  | none =>
      let p := defaultGameRow uid now
      ({ st with players := st.players ++ [p] }, p)

/-- The columns projected by the leaderboard `SELECT`. -/
structure LeaderboardEntry where
  user_id : Int
  nickname : String
  avatar : String
  taps_per_minute : Int
  total_taps : Int
deriving DecidableEq, Repr

/-- The `ORDER BY taps_per_minute DESC, total_taps DESC` ordering: `a` may
precede `b` iff `a` is strictly higher on `taps_per_minute`, or equal on it
and at least as high on `total_taps`. -/
def lbRel (a b : LeaderboardEntry) : Prop :=
  b.taps_per_minute < a.taps_per_minute ∨
    (a.taps_per_minute = b.taps_per_minute ∧ b.total_taps ≤ a.total_taps)

instance : DecidableRel lbRel := fun a b => by
  unfold lbRel; infer_instance

instance : IsTotal LeaderboardEntry lbRel :=
  ⟨by intro a b; unfold lbRel; omega⟩

instance : IsTrans LeaderboardEntry lbRel :=
  ⟨by intro a b c; unfold lbRel; omega⟩

/-- `Database.get_leaderboard` (src/database.py lines 223-239): select
`user_id, nickname, avatar, taps_per_minute, total_taps` from `players` where
`taps_per_minute > 0 OR total_taps > 0`, order by `taps_per_minute DESC,
total_taps DESC`, limit to `limit` rows. (`WebAppDatabase.get_leaderboard`,
lines 409-425, is the same query over `webapp_users`.) -/
def get_leaderboard (st : GameState) (limit : Nat) : List LeaderboardEntry :=
  (List.insertionSort lbRel
    ((st.players.filter
        (fun r => decide (0 < r.taps_per_minute) || decide (0 < r.total_taps))).map
      (fun r => ⟨r.user_id, r.nickname, r.avatar, r.taps_per_minute, r.total_taps⟩))).take
    limit

/-! ### cleanup_old_records and sqlite parameter binding

`Database.cleanup_old_records` (src/database.py lines 241-263) executes

  DELETE FROM game_sessions WHERE start_time < datetime(now, -? days)

with the two words `now` and `-? days` written as quoted SQL string literals
and a one-element parameter tuple `(days,)`. A `?` inside a quoted SQL string
literal is part of the string, not a parameter marker, so the statement has
zero parameters; `sqlite3` then rejects the `execute` call with
`ProgrammingError: Incorrect number of bindings supplied` before anything is
deleted, the `except` branch rolls back and re-raises, and the database is
left unchanged. We model this faithfully: `placeholderCount` counts the `?`
markers of an SQL text exactly as sqlite tokenizes them (a quote toggles
string-literal mode), and the embedded operation checks the binding count
against the supplied parameters just as the driver does. -/

/-- One step of the placeholder scan: a quote toggles string-literal mode; a
`?` outside a string literal is a parameter marker. -/
def phStep (acc : Bool × Nat) (c : Char) : Bool × Nat :=
  if c == '\x27' then (!acc.1, acc.2)
  else if c == '?' && !acc.1 then (acc.1, acc.2 + 1)
  else acc

/-- Number of `?` parameter markers in an SQL text (markers inside quoted
string literals do not count). -/
def placeholderCount (sql : String) : Nat :=
  (sql.toList.foldl phStep (false, 0)).2

/-- The first DELETE statement of `cleanup_old_records`, verbatim. -/
def cleanupSessionsSQL : String :=
  "DELETE FROM game_sessions WHERE start_time < datetime(\x27now\x27, \x27-? days\x27)"

/-- The second DELETE statement of `cleanup_old_records`, verbatim. -/
def cleanupPlayersSQL : String :=
  "DELETE FROM players WHERE last_updated < datetime(\x27now\x27, \x27-? days\x27) AND total_taps = 0 AND taps_per_minute = 0"

/-- `Database.cleanup_old_records` (src/database.py lines 241-263). Each
`execute` supplies exactly one binding, `(days,)`; sqlite accepts it only if
the statement carries exactly one `?` marker. If accepted, the two deletes
would remove game sessions started more than `days` days ago and players with
`last_updated` more than `days` days old, `total_taps = 0` and
`taps_per_minute = 0`. A rejected binding raises, the transaction is rolled
back, and the state is unchanged (`none` result). Timestamps are in days. -/
def cleanup_old_records (st : GameState) (days now : Int) : Option GameState :=
  if placeholderCount cleanupSessionsSQL == 1 && placeholderCount cleanupPlayersSQL == 1 then
    let st1 := { st with
      sessions := st.sessions.filter (fun s => !decide (s.start_time < now - days)) }
    some { st1 with
      players := st1.players.filter (fun p =>
        !(decide (p.last_updated < now - days) && decide (p.total_taps = 0) &&
          decide (p.taps_per_minute = 0))) }
  else
    none

/-- A freshly created game database (after `init_db`). -/
def emptyGame : GameState := ⟨[], []⟩

/-- A tiny two-player game store used by concrete theorems: player 1 is
active (`taps_per_minute = 5`), player 2 is active with a lower rate. -/
def twoActiveSt : GameState :=
  ⟨[⟨1, "A", "avatar1", 10, 10, 1, 5, 0, "idle", none, none, 0⟩,
    ⟨2, "B", "avatar1", 7, 7, 1, 3, 0, "idle", none, none, 0⟩], []⟩

/-! ## Theorems

Everything below is proved about the definitions above; no further
definitions are introduced. -/

theorem find?_map_update {α : Type} (p : α → Bool) (f : α → α)
    (hp : ∀ a, p a = true → p (f a) = true) :
    ∀ l : List α, (l.map (fun a => if p a then f a else a)).find? p = (l.find? p).map f
  | [] => rfl
  | a :: l => by
      by_cases h : p a = true
      · simp [List.map_cons, h, List.find?_cons_of_pos, hp a h]
      · have h' : p a = false := by simpa using h
        simp only [List.map_cons, h', if_false, List.find?_cons_of_neg, h,
          find?_map_update p f hp l, Bool.false_eq_true, not_false_eq_true]

theorem find?_append_right_single {α : Type} (p : α → Bool) (l : List α) (a : α)
    (h : l.find? p = none) (ha : p a = true) : (l ++ [a]).find? p = some a := by
  simp [List.find?_append, h, List.find?_cons_of_pos, ha]

theorem get_or_create_user_of_some (st : WebAppState) (tid now : Int) (cur : WebUser)
    (h : getUserRow st tid = some cur) : get_or_create_user st tid now = (st, cur) := by
  unfold get_or_create_user
  simp only [getUserRow] at h
  simp [h]

theorem get_or_create_user_of_none (st : WebAppState) (tid now : Int)
    (h : getUserRow st tid = none) :
    get_or_create_user st tid now =
      ({ st with users := st.users ++ [defaultWebUser st.nextId tid now],
                 nextId := st.nextId + 1 },
       defaultWebUser st.nextId tid now) := by
  unfold get_or_create_user
  simp only [getUserRow] at h
  simp [h]

theorem getUserRow_append_default (st st' : WebAppState) (tid uid now : Int)
    (hu : st'.users = st.users ++ [defaultWebUser uid tid now])
    (h : getUserRow st tid = none) :
    getUserRow st' tid = some (defaultWebUser uid tid now) := by
  simp only [getUserRow] at h ⊢
  rw [hu]
  exact find?_append_right_single _ _ _ h (by simp [defaultWebUser])

theorem update_user_data_allnum (st : WebAppState) (tid : Int) (cur : WebUser)
    (nk av : String) (a b c d e now : Int)
    (h : getUserRow st tid = some cur) :
    update_user_data st tid
      ⟨some nk, some av, some (Value.num a), some (Value.num b), some (Value.num c),
       some (Value.num d), some (Value.num e)⟩ now =
    ({ st with users := st.users.map (fun r => if r.telegram_id == tid then
        { r with
          nickname := nk, avatar := av, total_taps := max 0 a, best_score := max 0 b,
          tap_power := max 1 c, taps_per_minute := max 0 d, coins := max 0 e,
          last_updated := now }
        else r) },
     some { cur with
            nickname := nk, avatar := av, total_taps := max 0 a, best_score := max 0 b,
            tap_power := max 1 c, taps_per_minute := max 0 d, coins := max 0 e,
            last_updated := now }) := by
  unfold update_user_data
  rw [get_or_create_user_of_some st tid now cur h]
  simp [pyInt]

theorem handle_game_end_of_some (st : WebAppState) (tid now : Int) (g : GameEndData)
    (cur : WebUser) (h : getUserRow st tid = some cur) :
    handle_game_end st tid g now =
      { st with
        users := st.users.map (fun r => if r.telegram_id == tid then
          { r with
            nickname := g.nickname.getD cur.nickname,
            avatar := g.avatar.getD cur.avatar,
            total_taps := max 0 (cur.total_taps + max 0 (g.score.getD 0)),
            best_score := max 0 (max cur.best_score (max 0 (g.score.getD 0))),
            tap_power := max 1 (max 1 (g.tapPower.getD 1)),
            taps_per_minute := max 0 (max cur.taps_per_minute (max 0 (g.tapsPerMinute.getD 0))),
            coins := max 0 (cur.coins +
              max 0 (g.coinsEarned.getD (Int.fdiv (max 0 (g.score.getD 0)) 10))),
            last_updated := now }
          else r),
        achievements :=
          (st.achievements ++
            (if 1000 < max 0 (g.score.getD 0) then
              [⟨cur.id, "high_score", max 0 (g.score.getD 0), now⟩] else [])) ++
          (if 100 < max 0 (g.tapsPerMinute.getD 0) then
            [⟨cur.id, "speed_demon", max 0 (g.tapsPerMinute.getD 0), now⟩] else []) } := by
  have h2 := update_user_data_allnum st tid cur
    (g.nickname.getD cur.nickname) (g.avatar.getD cur.avatar)
    (cur.total_taps + max 0 (g.score.getD 0))
    (max cur.best_score (max 0 (g.score.getD 0)))
    (max 1 (g.tapPower.getD 1))
    (max cur.taps_per_minute (max 0 (g.tapsPerMinute.getD 0)))
    (cur.coins + max 0 (g.coinsEarned.getD (Int.fdiv (max 0 (g.score.getD 0)) 10)))
    now h
  simp only [handle_game_end, get_or_create_user_of_some st tid now cur h, h2]
  split_ifs <;> simp [record_achievement, List.append_assoc]

theorem handle_game_end_of_none (st : WebAppState) (tid now : Int) (g : GameEndData)
    (h : getUserRow st tid = none) :
    handle_game_end st tid g now =
      handle_game_end
        { st with users := st.users ++ [defaultWebUser st.nextId tid now],
                  nextId := st.nextId + 1 } tid g now := by
  have hd : getUserRow
      { st with users := st.users ++ [defaultWebUser st.nextId tid now],
                nextId := st.nextId + 1 } tid = some (defaultWebUser st.nextId tid now) :=
    getUserRow_append_default st _ tid st.nextId now rfl h
  simp only [handle_game_end, get_or_create_user_of_none st tid now h,
    get_or_create_user_of_some _ tid now _ hd]

theorem getUserRow_handle_game_end_of_some (st : WebAppState) (tid now : Int)
    (g : GameEndData) (cur : WebUser) (h : getUserRow st tid = some cur) :
    getUserRow (handle_game_end st tid g now) tid = some (gameEndMerge cur g now) := by
  rw [handle_game_end_of_some st tid now g cur h]
  simp only [getUserRow]
  rw [find?_map_update (fun r => r.telegram_id == tid)
      (fun r => { r with
        nickname := g.nickname.getD cur.nickname,
        avatar := g.avatar.getD cur.avatar,
        total_taps := max 0 (cur.total_taps + max 0 (g.score.getD 0)),
        best_score := max 0 (max cur.best_score (max 0 (g.score.getD 0))),
        tap_power := max 1 (max 1 (g.tapPower.getD 1)),
        taps_per_minute := max 0 (max cur.taps_per_minute (max 0 (g.tapsPerMinute.getD 0))),
        coins := max 0 (cur.coins +
          max 0 (g.coinsEarned.getD (Int.fdiv (max 0 (g.score.getD 0)) 10))),
        last_updated := now })
      (fun a ha => ha) st.users]
  rw [show st.users.find? (fun r => r.telegram_id == tid) = some cur from h]
  simp [gameEndMerge]

theorem getUserRow_handle_game_end_of_none (st : WebAppState) (tid now : Int)
    (g : GameEndData) (h : getUserRow st tid = none) :
    getUserRow (handle_game_end st tid g now) tid =
      some (gameEndMerge (defaultWebUser st.nextId tid now) g now) := by
  rw [handle_game_end_of_none st tid now g h]
  exact getUserRow_handle_game_end_of_some _ tid now g _
    (getUserRow_append_default st _ tid st.nextId now rfl h)

/-- Claim C1: for a player with no prior activity, submitting a game end with
score `s1` and then one with score `s2` through the update path (the gameEnd
branch of `handle_webapp_data` writing via `update_user_data`) leaves
`total_taps = s1 + s2` (additive, not a raw replacement) and
`best_score = max s1 s2`; and on every such update, `best_score` and
`taps_per_minute` are merged via `max(current, incoming)`. -/
theorem claim1_update_merge (st : WebAppState) (u : Int) (s1 s2 now1 now2 : Int)
    (habsent : getUserRow st u = none) (h1 : 0 ≤ s1) (h2 : 0 ≤ s2) :
    ((getUserRow (handle_game_end (handle_game_end st u { score := some s1 } now1) u
        { score := some s2 } now2) u).map WebUser.total_taps = some (s1 + s2) ∧
     (getUserRow (handle_game_end (handle_game_end st u { score := some s1 } now1) u
        { score := some s2 } now2) u).map WebUser.best_score = some (max s1 s2)) ∧
    (∀ (st' : WebAppState) (cur : WebUser) (s t now : Int),
       getUserRow st' u = some cur → 0 ≤ cur.best_score → 0 ≤ cur.taps_per_minute →
       0 ≤ s → 0 ≤ t →
       (getUserRow (handle_game_end st' u { score := some s, tapsPerMinute := some t } now)
          u).map WebUser.best_score = some (max cur.best_score s) ∧
       (getUserRow (handle_game_end st' u { score := some s, tapsPerMinute := some t } now)
          u).map WebUser.taps_per_minute = some (max cur.taps_per_minute t)) := by
  constructor
  · have e1 := getUserRow_handle_game_end_of_none st u now1 { score := some s1 } habsent
    have e2 := getUserRow_handle_game_end_of_some _ u now2 { score := some s2 } _ e1
    rw [e2]
    refine ⟨?_, ?_⟩ <;>
      · simp [gameEndMerge, defaultWebUser]
        omega
  · intro st' cur s t now hcur hb ht hs htt
    have e := getUserRow_handle_game_end_of_some st' u now
      { score := some s, tapsPerMinute := some t } cur hcur
    rw [e]
    refine ⟨?_, ?_⟩ <;>
      · simp [gameEndMerge]
        omega

/-- Witness for C1 at a concrete input: two sessions of scores 50 and 30 for
the fresh player 42 leave `total_taps = 80` and `best_score = 50`. -/
theorem claim1_update_merge_witness :
    getUserRow emptyWebApp 42 = none ∧
    (getUserRow (handle_game_end (handle_game_end emptyWebApp 42 { score := some 50 } 0) 42
        { score := some 30 } 1) 42).map WebUser.total_taps = some (50 + 30) ∧
    (getUserRow (handle_game_end (handle_game_end emptyWebApp 42 { score := some 50 } 0) 42
        { score := some 30 } 1) 42).map WebUser.best_score = some (max 50 30) :=
  ⟨rfl,
   (claim1_update_merge emptyWebApp 42 50 30 0 1 rfl (by decide) (by decide)).1.1,
   (claim1_update_merge emptyWebApp 42 50 30 0 1 rfl (by decide) (by decide)).1.2⟩

/-- Claim C2 counterexample: the code's task ledger (`record_achievement`
over the `achievements` table, the sources named by the claim) does not
absorb duplicates. Recording the pair `(1, "channel_x")` twice leaves the
completed-task list containing `"channel_x"` twice, not exactly once; both
calls succeed unconditionally (no `false` is ever reported — the method
returns nothing at all). -/
theorem claim2_counterexample :
    (completed_types (record_achievement (record_achievement
        (get_or_create_user emptyWebApp 1 0).1 1 "channel_x" 0 0) 1 "channel_x" 0 1) 1).count
      "channel_x" = 2 ∧
    ¬ (completed_types (record_achievement (record_achievement
        (get_or_create_user emptyWebApp 1 0).1 1 "channel_x" 0 0) 1 "channel_x" 0 1) 1).count
      "channel_x" = 1 := by
  constructor <;> decide

/-- Claim C2 (amended): `record_achievement` is a plain append — every call,
including a repeated call for an already-recorded `(user, task)` pair,
succeeds and adds the task one more time to the player's completed list;
duplicates are inserted, not silently absorbed, and no boolean is returned. -/
theorem claim2_amended_append (st : WebAppState) (u : Int) (t : String) (v now : Int) :
    completed_types (record_achievement st u t v now) u = completed_types st u ++ [t] := by
  simp [completed_types, record_achievement, List.filter_append]

/-- Claim C3 counterexample: on an empty store, `get_player 42` returns the
DDL default nickname, which is the Russian string `Игрок`, not the literal
`"Player"` the claim states. -/
theorem claim3_counterexample :
    (get_player emptyGame 42 0).2.nickname ≠ "Player" ∧
    (get_player emptyGame 42 0).2.nickname = "Игрок" := by
  constructor <;> decide

/-- Claim C3 (amended): for an absent `userId`, `get_player` synthesizes,
persists and returns the default row — nickname `"Игрок"` (the DDL default;
the claim's `"Player"` is that default's English rendering), avatar
`"avatar1"`, `total_taps = 0`, `best_score = 0`, `tap_power = 1`,
`taps_per_minute = 0` — it never reports not-found (it is total), and a
repeated call returns the same persisted row without further writes. -/
theorem claim3_default_row (st : GameState) (uid now now' : Int)
    (h : st.players.find? (fun r => r.user_id == uid) = none) :
    get_player st uid now =
      ({ st with players := st.players ++ [defaultGameRow uid now] }, defaultGameRow uid now) ∧
    (defaultGameRow uid now).nickname = "Игрок" ∧
    (defaultGameRow uid now).avatar = "avatar1" ∧
    (defaultGameRow uid now).total_taps = 0 ∧
    (defaultGameRow uid now).best_score = 0 ∧
    (defaultGameRow uid now).tap_power = 1 ∧
    (defaultGameRow uid now).taps_per_minute = 0 ∧
    get_player { st with players := st.players ++ [defaultGameRow uid now] } uid now' =
      ({ st with players := st.players ++ [defaultGameRow uid now] }, defaultGameRow uid now) := by
  refine ⟨?_, rfl, rfl, rfl, rfl, rfl, rfl, ?_⟩
  · unfold get_player
    simp [h]
  · unfold get_player
    rw [show ({ st with players := st.players ++ [defaultGameRow uid now] } : GameState).players
          = st.players ++ [defaultGameRow uid now] from rfl,
        find?_append_right_single _ _ _ h (by simp [defaultGameRow])]

/-- Witness for C3 (amended) at a concrete input: `get_player 42` on the
empty store creates and returns the default row, and a second call at a
later time returns the very same persisted row. -/
theorem claim3_default_row_witness :
    get_player emptyGame 42 0 =
      ({ emptyGame with players := emptyGame.players ++ [defaultGameRow 42 0] },
       defaultGameRow 42 0) ∧
    get_player { emptyGame with players := emptyGame.players ++ [defaultGameRow 42 0] } 42 5 =
      ({ emptyGame with players := emptyGame.players ++ [defaultGameRow 42 0] },
       defaultGameRow 42 0) :=
  ⟨(claim3_default_row emptyGame 42 0 5 rfl).1,
   (claim3_default_row emptyGame 42 0 5 rfl).2.2.2.2.2.2.2⟩

/-- Claim C4: the claim describes what `cleanup_old_records` is documented to
do, but the code can never do it — in both DELETE statements the `?` sits
inside a quoted SQL string literal (`-? days`), so the statements carry zero
parameter markers while one binding is supplied, and sqlite rejects every
`execute` with `ProgrammingError` before deleting anything; the transaction
is rolled back and the call raises. Hence: both statements have zero
placeholders, and `cleanup_old_records` fails (returns `none`, deleting
nothing) on every store, every retention window, and every current time —
in particular a player last updated 40 days ago with `total_taps = 0` is
*not* removed by `cleanup(30)`. -/
theorem claim4_cleanup_always_fails :
    placeholderCount cleanupSessionsSQL = 0 ∧ placeholderCount cleanupPlayersSQL = 0 ∧
    ∀ (st : GameState) (days now : Int), cleanup_old_records st days now = none :=
  ⟨rfl, rfl, fun _ _ _ => rfl⟩

/-- Claim C5 counterexample: with two qualifying players and `limit = 1`,
the leaderboard does not contain *exactly* the players satisfying
`taps_per_minute > 0 OR total_taps > 0`: player 2 qualifies but the LIMIT
truncates it away. -/
theorem claim5_counterexample :
    (⟨2, "B", "avatar1", 3, 7⟩ : LeaderboardEntry) ∉ get_leaderboard twoActiveSt 1 ∧
    (∃ r ∈ twoActiveSt.players, (0 < r.taps_per_minute ∨ 0 < r.total_taps) ∧
      (⟨2, "B", "avatar1", 3, 7⟩ : LeaderboardEntry) =
        ⟨r.user_id, r.nickname, r.avatar, r.taps_per_minute, r.total_taps⟩) := by
  constructor <;> decide

/-- Claim C5 (amended): `get_leaderboard n` returns at most `n` entries,
sorted non-increasing by `taps_per_minute` with ties non-increasing by
`total_taps`; every returned entry is the projection of a stored player
satisfying `taps_per_minute > 0 OR total_taps > 0`; entries with both zero
never appear; and whenever `n` is at least the number of qualifying players
(in particular for the untruncated query), the result contains exactly the
qualifying players. -/
theorem claim5_leaderboard (st : GameState) (n : Nat) :
    (get_leaderboard st n).length ≤ n ∧
    List.Pairwise lbRel (get_leaderboard st n) ∧
    (∀ e ∈ get_leaderboard st n, ∃ r ∈ st.players,
        (0 < r.taps_per_minute ∨ 0 < r.total_taps) ∧
        e = ⟨r.user_id, r.nickname, r.avatar, r.taps_per_minute, r.total_taps⟩) ∧
    (∀ e ∈ get_leaderboard st n, 0 < e.taps_per_minute ∨ 0 < e.total_taps) ∧
    ((st.players.filter
        (fun r => decide (0 < r.taps_per_minute) || decide (0 < r.total_taps))).length ≤ n →
      ∀ r ∈ st.players, (0 < r.taps_per_minute ∨ 0 < r.total_taps) →
        (⟨r.user_id, r.nickname, r.avatar, r.taps_per_minute, r.total_taps⟩ :
          LeaderboardEntry) ∈ get_leaderboard st n) := by
  have hmem : ∀ e ∈ get_leaderboard st n, ∃ r ∈ st.players,
      (0 < r.taps_per_minute ∨ 0 < r.total_taps) ∧
      e = ⟨r.user_id, r.nickname, r.avatar, r.taps_per_minute, r.total_taps⟩ := by
    intro e he
    have h1 : e ∈ List.insertionSort lbRel
        ((st.players.filter
          (fun r => decide (0 < r.taps_per_minute) || decide (0 < r.total_taps))).map
          (fun r => ⟨r.user_id, r.nickname, r.avatar, r.taps_per_minute, r.total_taps⟩)) :=
      List.mem_of_mem_take he
    have h2 := (List.perm_insertionSort lbRel _).mem_iff.mp h1
    obtain ⟨r, hr, he'⟩ := List.mem_map.mp h2
    obtain ⟨hrp, hq⟩ := List.mem_filter.mp hr
    refine ⟨r, hrp, ?_, he'.symm⟩
    simpa using hq
  refine ⟨?_, ?_, hmem, ?_, ?_⟩
  · exact List.length_take_le n _
  · exact List.Pairwise.sublist (List.take_sublist n _)
      (List.sorted_insertionSort lbRel _)
  · intro e he
    obtain ⟨r, _, hq, he'⟩ := hmem e he
    subst he'
    exact hq
  · intro hn r hr hq
    have hlen : (List.insertionSort lbRel
        ((st.players.filter
          (fun r => decide (0 < r.taps_per_minute) || decide (0 < r.total_taps))).map
          (fun r => ⟨r.user_id, r.nickname, r.avatar, r.taps_per_minute, r.total_taps⟩))).length
        ≤ n := by
      rw [ (List.perm_insertionSort lbRel _).length_eq, List.length_map]
      exact hn
    have hmem2 : (⟨r.user_id, r.nickname, r.avatar, r.taps_per_minute, r.total_taps⟩ :
        LeaderboardEntry) ∈ List.insertionSort lbRel
        ((st.players.filter
          (fun r => decide (0 < r.taps_per_minute) || decide (0 < r.total_taps))).map
          (fun r => ⟨r.user_id, r.nickname, r.avatar, r.taps_per_minute, r.total_taps⟩)) := by
      rw [(List.perm_insertionSort lbRel _).mem_iff]
      exact List.mem_map.mpr ⟨r, List.mem_filter.mpr ⟨hr, by simpa using hq⟩, rfl⟩
    unfold get_leaderboard
    rw [List.take_of_length_le hlen]
    exact hmem2

/-- Witness for C5 at a concrete input: on the two-player store with limit
10, the leaderboard has at most 10 entries and player 2's projection (which
qualifies) appears. -/
theorem claim5_leaderboard_witness :
    (get_leaderboard twoActiveSt 10).length ≤ 10 ∧
    (⟨2, "B", "avatar1", 3, 7⟩ : LeaderboardEntry) ∈ get_leaderboard twoActiveSt 10 :=
  ⟨(claim5_leaderboard twoActiveSt 10).1,
   (claim5_leaderboard twoActiveSt 10).2.2.2.2 (by decide)
     ⟨2, "B", "avatar1", 7, 7, 1, 3, 0, "idle", none, none, 0⟩ (by decide) (by decide)⟩

/-- Claim C6 counterexample: a failing update is not always write-free. For
a `telegram_id` with no existing row, `update_user_data` first runs
`get_or_create_user`, whose INSERT of the default row is committed on its
own; the subsequent `int()` failure aborts only the UPDATE. So the call
raises (`none`) yet the returned state differs from the initial one — the
freshly created default row persists. -/
theorem claim6_counterexample :
    (update_user_data emptyWebApp 42 { total_taps := some Value.bad } 0).2 = none ∧
    (update_user_data emptyWebApp 42 { total_taps := some Value.bad } 0).1 ≠ emptyWebApp := by
  constructor <;> decide

/-- Claim C6 (amended): when the player row already exists, an update whose
payload holds a non-numeric / unparseable value in any numeric field
(`total_taps`, `best_score`, `tap_power`, `taps_per_minute`, `coins`) makes
the whole call raise (a `ValueError` from `int()`, surfaced by the method's
rollback-and-reraise) with no partial write: the returned state is exactly
the prior state, every field of the player row unchanged. (For an absent
row the failing call still persists the default row created by the initial
`get_or_create_user` — see the counterexample.) -/
theorem claim6_validation_rollback (st : WebAppState) (tid : Int) (data : UpdateData)
    (now : Int) (cur : WebUser) (h : getUserRow st tid = some cur)
    (hbad : data.total_taps = some Value.bad ∨ data.best_score = some Value.bad ∨
      data.tap_power = some Value.bad ∨ data.taps_per_minute = some Value.bad ∨
      data.coins = some Value.bad) :
    update_user_data st tid data now = (st, none) := by
  unfold update_user_data
  rw [get_or_create_user_of_some st tid now cur h]
  cases htt : pyInt (data.total_taps.getD (Value.num cur.total_taps)) <;>
  cases hbs : pyInt (data.best_score.getD (Value.num cur.best_score)) <;>
  cases htp : pyInt (data.tap_power.getD (Value.num cur.tap_power)) <;>
  cases htpm : pyInt (data.taps_per_minute.getD (Value.num cur.taps_per_minute)) <;>
  cases hcn : pyInt (data.coins.getD (Value.num cur.coins)) <;>
    (rcases hbad with hb | hb | hb | hb | hb <;> simp_all [pyInt])

/-- Witness for C6 (amended) at a concrete input: for the existing player
42, an update carrying a bad `coins` value raises and returns the state
unchanged. -/
theorem claim6_validation_rollback_witness :
    update_user_data (get_or_create_user emptyWebApp 42 0).1 42
        { coins := some Value.bad } 1 = ((get_or_create_user emptyWebApp 42 0).1, none) :=
  claim6_validation_rollback (get_or_create_user emptyWebApp 42 0).1 42
    { coins := some Value.bad } 1 (defaultWebUser 1 42 0) (by decide)
    (Or.inr (Or.inr (Or.inr (Or.inr rfl))))

theorem update_user_data_of_absent (st : WebAppState) (tid now : Int) (data : UpdateData)
    (h : getUserRow st tid = none) :
    update_user_data st tid data now =
      update_user_data
        { st with users := st.users ++ [defaultWebUser st.nextId tid now],
                  nextId := st.nextId + 1 } tid data now := by
  unfold update_user_data
  rw [get_or_create_user_of_none st tid now h,
      get_or_create_user_of_some _ tid now _
        (getUserRow_append_default st _ tid st.nextId now rfl h)]

theorem update_user_data_success_char (st1 : WebAppState) (tid : Int) (data : UpdateData)
    (now : Int) (cur1 : WebUser) (hg : getUserRow st1 tid = some cur1)
    (st' : WebAppState) (w : WebUser)
    (hupd : update_user_data st1 tid data now = (st', some w)) :
    (∃ tt bs tp tpm cn : Int,
      w = { cur1 with
            nickname := data.nickname.getD cur1.nickname,
            avatar := data.avatar.getD cur1.avatar,
            total_taps := max 0 tt, best_score := max 0 bs, tap_power := max 1 tp,
            taps_per_minute := max 0 tpm, coins := max 0 cn, last_updated := now }) ∧
    getUserRow st' tid = some w := by
  unfold update_user_data at hupd
  rw [get_or_create_user_of_some st1 tid now cur1 hg] at hupd
  rcases htt : pyInt (data.total_taps.getD (Value.num cur1.total_taps)) with _ | tt
  · simp only [htt] at hupd
    simp [Prod.ext_iff] at hupd
  rcases hbs : pyInt (data.best_score.getD (Value.num cur1.best_score)) with _ | bs
  · simp only [htt, hbs] at hupd
    simp [Prod.ext_iff] at hupd
  rcases htp : pyInt (data.tap_power.getD (Value.num cur1.tap_power)) with _ | tp
  · simp only [htt, hbs, htp] at hupd
    simp [Prod.ext_iff] at hupd
  rcases htpm : pyInt (data.taps_per_minute.getD (Value.num cur1.taps_per_minute)) with _ | tpm
  · simp only [htt, hbs, htp, htpm] at hupd
    simp [Prod.ext_iff] at hupd
  rcases hcn : pyInt (data.coins.getD (Value.num cur1.coins)) with _ | cn
  · simp only [htt, hbs, htp, htpm, hcn] at hupd
    simp [Prod.ext_iff] at hupd
  simp only [htt, hbs, htp, htpm, hcn] at hupd
  have hst := congrArg Prod.fst hupd
  have hw := congrArg Prod.snd hupd
  simp only at hst hw
  refine ⟨⟨tt, bs, tp, tpm, cn, (Option.some.inj hw).symm⟩, ?_⟩
  rw [← hst]
  simp only [getUserRow]
  rw [find?_map_update (fun r => r.telegram_id == tid)
      (fun r => { r with
        nickname := data.nickname.getD cur1.nickname,
        avatar := data.avatar.getD cur1.avatar,
        total_taps := max 0 tt, best_score := max 0 bs, tap_power := max 1 tp,
        taps_per_minute := max 0 tpm, coins := max 0 cn, last_updated := now })
      (fun a ha => ha) st1.users]
  rw [show st1.users.find? (fun r => r.telegram_id == tid) = some cur1 from hg]
  exact hw

theorem update_user_data_success_row (st : WebAppState) (tid : Int) (data : UpdateData)
    (now : Int) (st' : WebAppState) (w : WebUser)
    (hupd : update_user_data st tid data now = (st', some w)) :
    (∃ (cur1 : WebUser) (tt bs tp tpm cn : Int),
      w = { cur1 with
            nickname := data.nickname.getD cur1.nickname,
            avatar := data.avatar.getD cur1.avatar,
            total_taps := max 0 tt, best_score := max 0 bs, tap_power := max 1 tp,
            taps_per_minute := max 0 tpm, coins := max 0 cn, last_updated := now }) ∧
    getUserRow st' tid = some w := by
  cases hg : getUserRow st tid with
  | some cur =>
      obtain ⟨⟨tt, bs, tp, tpm, cn, hw⟩, hr⟩ :=
        update_user_data_success_char st tid data now cur hg st' w hupd
      exact ⟨⟨cur, tt, bs, tp, tpm, cn, hw⟩, hr⟩
  | none =>
      rw [update_user_data_of_absent st tid now data hg] at hupd
      obtain ⟨⟨tt, bs, tp, tpm, cn, hw⟩, hr⟩ :=
        update_user_data_success_char _ tid data now _
          (getUserRow_append_default st _ tid st.nextId now rfl hg) st' w hupd
      exact ⟨⟨_, tt, bs, tp, tpm, cn, hw⟩, hr⟩

/-- Claim C8: every update accepted by `update_user_data` stores coerced,
clamped integers: in the row it leaves behind, `total_taps`, `best_score`
and `taps_per_minute` are floored at 0 and `tap_power` is floored at 1. -/
theorem claim8_clamped (st : WebAppState) (tid : Int) (data : UpdateData) (now : Int)
    (st' : WebAppState) (w row : WebUser)
    (hupd : update_user_data st tid data now = (st', some w))
    (hrow : getUserRow st' tid = some row) :
    0 ≤ row.total_taps ∧ 0 ≤ row.best_score ∧ 0 ≤ row.taps_per_minute ∧
      1 ≤ row.tap_power := by
  obtain ⟨⟨cur1, tt, bs, tp, tpm, cn, hw⟩, hr⟩ :=
    update_user_data_success_row st tid data now st' w hupd
  have hwr : w = row := by
    rw [hr] at hrow
    exact Option.some.inj hrow
  subst hwr
  rw [hw]
  refine ⟨?_, ?_, ?_, ?_⟩ <;> simp

/-- Witness for C8 at a concrete input: the row left by an empty update for
the fresh player 7 satisfies all four clamps. -/
theorem claim8_clamped_witness :
    0 ≤ (defaultWebUser 1 7 0).total_taps ∧ 0 ≤ (defaultWebUser 1 7 0).best_score ∧
    0 ≤ (defaultWebUser 1 7 0).taps_per_minute ∧ 1 ≤ (defaultWebUser 1 7 0).tap_power :=
  claim8_clamped emptyWebApp 7 {} 0 ⟨[defaultWebUser 1 7 0], 2, [], []⟩
    (defaultWebUser 1 7 0) (defaultWebUser 1 7 0) (by decide) (by decide)

/-- Claim C9: round-trip — a nickname or avatar value written by a
successful `update_user_data` is returned verbatim by the next
`get_or_create_user` (the read path of `getPlayer`), absent any intervening
update. -/
theorem claim9_roundtrip (st : WebAppState) (tid : Int) (data : UpdateData)
    (now now' : Int) (st' : WebAppState) (w : WebUser)
    (hupd : update_user_data st tid data now = (st', some w)) :
    (∀ v, data.nickname = some v → (get_or_create_user st' tid now').2.nickname = v) ∧
    (∀ v, data.avatar = some v → (get_or_create_user st' tid now').2.avatar = v) := by
  obtain ⟨⟨cur1, tt, bs, tp, tpm, cn, hw⟩, hr⟩ :=
    update_user_data_success_row st tid data now st' w hupd
  rw [get_or_create_user_of_some st' tid now' w hr]
  constructor
  · intro v hv
    rw [hw]
    simp [hv]
  · intro v hv
    rw [hw]
    simp [hv]

/-- Witness for C9 at a concrete input: writing nickname `"Neo"` and avatar
`"avatar2"` for player 7, the next read returns both verbatim. -/
theorem claim9_roundtrip_witness :
    (get_or_create_user ⟨[⟨1, 7, "Neo", "avatar2", 0, 0, 1, 0, 0, 0⟩], 2, [], []⟩ 7 5).2.nickname
      = "Neo" ∧
    (get_or_create_user ⟨[⟨1, 7, "Neo", "avatar2", 0, 0, 1, 0, 0, 0⟩], 2, [], []⟩ 7 5).2.avatar
      = "avatar2" :=
  ⟨(claim9_roundtrip emptyWebApp 7 { nickname := some "Neo", avatar := some "avatar2" } 0 5
      ⟨[⟨1, 7, "Neo", "avatar2", 0, 0, 1, 0, 0, 0⟩], 2, [], []⟩
      ⟨1, 7, "Neo", "avatar2", 0, 0, 1, 0, 0, 0⟩ (by decide)).1 "Neo" rfl,
   (claim9_roundtrip emptyWebApp 7 { nickname := some "Neo", avatar := some "avatar2" } 0 5
      ⟨[⟨1, 7, "Neo", "avatar2", 0, 0, 1, 0, 0, 0⟩], 2, [], []⟩
      ⟨1, 7, "Neo", "avatar2", 0, 0, 1, 0, 0, 0⟩ (by decide)).2 "avatar2" rfl⟩

/-- Claim C7 counterexample: the webapp store has no score-history table and
the update path appends no history row. For the existing player 42, an
update carrying `score = 5 > 0` leaves every table other than
`webapp_users` exactly as before — nothing is appended anywhere, so no
ScoreHistoryEntry exists for this submission. -/
theorem claim7_counterexample :
    (0:Int) < 5 ∧
    (handle_game_end (get_or_create_user emptyWebApp 42 0).1 42 { score := some 5 } 1).achievements
      = ((get_or_create_user emptyWebApp 42 0).1).achievements ∧
    (handle_game_end (get_or_create_user emptyWebApp 42 0).1 42 { score := some 5 } 1).purchases
      = ((get_or_create_user emptyWebApp 42 0).1).purchases := by
  refine ⟨by decide, by decide, by decide⟩

/-- Claim C7 (amended): the update path appends no score history. The only
side-table writes of the gameEnd flow are `record_achievement` rows — one
`high_score` row exactly when the clamped score exceeds 1000 and one
`speed_demon` row exactly when the clamped `tapsPerMinute` exceeds 100 —
each committed in its own transaction after the player-row write; the
purchases table is never touched, and a submission with
`0 < score ≤ 1000` and `tapsPerMinute ≤ 100` appends nothing at all. -/
theorem claim7_no_history_append (st : WebAppState) (tid : Int) (g : GameEndData)
    (now : Int) :
    (handle_game_end st tid g now).purchases = st.purchases ∧
    (handle_game_end st tid g now).achievements =
      (st.achievements ++
        (if 1000 < max 0 (g.score.getD 0) then
          [⟨(get_or_create_user st tid now).2.id, "high_score", max 0 (g.score.getD 0), now⟩]
         else [])) ++
      (if 100 < max 0 (g.tapsPerMinute.getD 0) then
        [⟨(get_or_create_user st tid now).2.id, "speed_demon",
           max 0 (g.tapsPerMinute.getD 0), now⟩]
       else []) := by
  cases h : getUserRow st tid with
  | some cur =>
      rw [handle_game_end_of_some st tid now g cur h,
          get_or_create_user_of_some st tid now cur h]
      exact ⟨rfl, rfl⟩
  | none =>
      rw [handle_game_end_of_none st tid now g h,
          handle_game_end_of_some _ tid now g _
            (getUserRow_append_default st _ tid st.nextId now rfl h),
          get_or_create_user_of_none st tid now h]
      exact ⟨rfl, rfl⟩

/-- Claim C10: `record_purchase` returns `False` and leaves the state
unchanged when the user (looked up by surrogate `id`) is absent or their
balance is below the cost; when it returns `True` it appends exactly one
purchase row and decreases the user's balance by exactly the cost; and a
balance that was non-negative before the call is non-negative after it. -/
theorem claim10_purchase (st : WebAppState) (uid : Int) (itype iid : String)
    (cost now : Int) :
    (st.users.find? (fun r => r.id == uid) = none →
      record_purchase st uid itype iid cost now = (st, false)) ∧
    (∀ u, st.users.find? (fun r => r.id == uid) = some u → u.coins < cost →
      record_purchase st uid itype iid cost now = (st, false)) ∧
    (∀ st', record_purchase st uid itype iid cost now = (st', true) →
      st'.purchases = st.purchases ++ [⟨uid, itype, iid, cost, now⟩] ∧
      ∀ u, st.users.find? (fun r => r.id == uid) = some u →
        st'.users.find? (fun r => r.id == uid) =
          some { u with coins := u.coins - cost, last_updated := now }) ∧
    (∀ u, st.users.find? (fun r => r.id == uid) = some u → 0 ≤ u.coins →
      ∀ u', ((record_purchase st uid itype iid cost now).1.users.find?
        (fun r => r.id == uid)) = some u' → 0 ≤ u'.coins) := by
  refine ⟨?_, ?_, ?_, ?_⟩
  · intro h
    unfold record_purchase
    rw [h]
  · intro u hu hlt
    unfold record_purchase
    rw [hu]
    simp [not_le.mpr hlt]
  · intro st' hst'
    unfold record_purchase at hst'
    cases hu : st.users.find? (fun r => r.id == uid) with
    | none =>
        simp only [hu] at hst'
        simp [Prod.ext_iff] at hst'
    | some u =>
        simp only [hu] at hst'
        by_cases hc : cost ≤ u.coins
        · rw [if_pos hc] at hst'
          have hs := congrArg Prod.fst hst'
          simp only at hs
          subst hs
          refine ⟨rfl, ?_⟩
          intro u' hu'
          obtain rfl := Option.some.inj hu'
          show (st.users.map (fun r =>
            if r.id == uid then { r with coins := r.coins - cost, last_updated := now }
            else r)).find? (fun r => r.id == uid) = _
          rw [find?_map_update (fun r => r.id == uid)
              (fun r => { r with coins := r.coins - cost, last_updated := now })
              (fun a ha => ha) st.users, hu]
          rfl
        · rw [if_neg hc] at hst'
          simp [Prod.ext_iff] at hst'
  · intro u hu h0 u' hu'
    unfold record_purchase at hu'
    simp only [hu] at hu'
    by_cases hc : cost ≤ u.coins
    · rw [if_pos hc] at hu'
      rw [show (({ st with
            users := st.users.map (fun r =>
              if r.id == uid then { r with coins := r.coins - cost, last_updated := now }
              else r),
            purchases := st.purchases ++ [⟨uid, itype, iid, cost, now⟩] }, true) :
          WebAppState × Bool).1.users = st.users.map (fun r =>
            if r.id == uid then { r with coins := r.coins - cost, last_updated := now }
            else r) from rfl] at hu'
      rw [find?_map_update (fun r => r.id == uid)
          (fun r => { r with coins := r.coins - cost, last_updated := now })
          (fun a ha => ha) st.users, hu] at hu'
      have he : ({ u with coins := u.coins - cost, last_updated := now } : WebUser) = u' :=
        Option.some.inj hu'
      rw [← he]
      simp only
      omega
    · rw [if_neg hc] at hu'
      rw [show ((st, false) : WebAppState × Bool).1.users = st.users from rfl, hu] at hu'
      obtain rfl := Option.some.inj hu'
      exact h0

/-- Witness for C10 at concrete inputs: purchasing against an empty store
returns `False` with the store unchanged; after a granted purchase of cost 3
from a balance of 10, the stored balance (7) is still non-negative. -/
theorem claim10_purchase_witness :
    record_purchase emptyWebApp 1 "skin" "gold" 3 5 = (emptyWebApp, false) ∧
    0 ≤ (⟨1, 42, "Игрок", "avatar1", 0, 0, 1, 0, 7, 5⟩ : WebUser).coins :=
  ⟨(claim10_purchase emptyWebApp 1 "skin" "gold" 3 5).1 rfl,
   (claim10_purchase ⟨[⟨1, 42, "Игрок", "avatar1", 0, 0, 1, 0, 10, 0⟩], 2, [], []⟩
      1 "skin" "gold" 3 5).2.2.2 ⟨1, 42, "Игрок", "avatar1", 0, 0, 1, 0, 10, 0⟩ (by decide)
      (by decide) ⟨1, 42, "Игрок", "avatar1", 0, 0, 1, 0, 7, 5⟩ (by decide)⟩
